import Mathlib

/-
Verification development for the telexide dispatch core.

The embedding covers:
- the data model of src/model/raw.rs (RawUpdate and its component types),
  src/model/inline.rs (InlineQuery, ChosenInlineResult) and
  src/model/other.rs (CallbackQuery);
- the event-handler wrappers of src/client/event_handlers.rs
  (EventHandler, RawEventHandler, MessageHandler, InlineQueryHandler,
  InlineResultHandler), embedded over an explicit small-step semantics of
  the Arc/tokio::sync::Mutex/async-block machinery they use.

Machine integers (i64) are embedded as Int, usize as Nat, DateTime as Int
(unix seconds, matching the unix_date_formatting serde representation).
-/

namespace Telexide

/-
Leaf schema data-transfer types referenced by the embedded sources but whose
own definitions are not among the provided sources.  The spec (section 1)
declares the schema types out of scope, so each is kept opaque: a one-field
marker structure.  No claim depends on their internals.
-/

/-- Modelled from the spec: opaque schema leaf type (source file absent). -/
structure User where
  id : Int

/-- Modelled from the spec: opaque schema leaf type (source file absent). -/
structure Location where
  id : Int

/-- Modelled from the spec: opaque schema leaf type (source file absent). -/
structure MessageEntity where
  id : Int

/-- Modelled from the spec: opaque schema leaf type (source file absent). -/
structure Audio where
  id : Int

/-- Modelled from the spec: opaque schema leaf type (source file absent). -/
structure Document where
  id : Int

/-- Modelled from the spec: opaque schema leaf type (source file absent). -/
structure Animation where
  id : Int

/-- Modelled from the spec: opaque schema leaf type (source file absent). -/
structure Game where
  id : Int

/-- Modelled from the spec: opaque schema leaf type (source file absent). -/
structure PhotoSize where
  id : Int

/-- Modelled from the spec: opaque schema leaf type (source file absent). -/
structure Sticker where
  id : Int

/-- Modelled from the spec: opaque schema leaf type (source file absent). -/
structure Video where
  id : Int

/-- Modelled from the spec: opaque schema leaf type (source file absent). -/
structure Voice where
  id : Int

/-- Modelled from the spec: opaque schema leaf type (source file absent). -/
structure VideoNote where
  id : Int

/-- Modelled from the spec: opaque schema leaf type (source file absent). -/
structure Contact where
  id : Int

/-- Modelled from the spec: opaque schema leaf type (source file absent). -/
structure Venue where
  id : Int

/-- Modelled from the spec: opaque schema leaf type (source file absent). -/
structure Poll where
  id : Int

/-- Modelled from the spec: opaque schema leaf type (source file absent). -/
structure Dice where
  id : Int

/-- Modelled from the spec: opaque schema leaf type (source file absent). -/
structure InlineKeyboardMarkup where
  id : Int

/-- Modelled from the spec: opaque schema leaf type (source file absent). -/
structure Invoice where
  id : Int

/-- Modelled from the spec: opaque schema leaf type (source file absent). -/
structure SuccessfulPayment where
  id : Int

/-- Modelled from the spec: opaque schema leaf type (source file absent). -/
structure PassportData where
  id : Int

/-- Modelled from the spec: opaque schema leaf type (source file absent). -/
structure ProximityAlertTriggered where
  id : Int

/-- Modelled from the spec: opaque schema leaf type (source file absent). -/
structure ChatPhoto where
  id : Int

/-- Modelled from the spec: opaque schema leaf type (source file absent). -/
structure ChatPermissions where
  id : Int

/-- Modelled from the spec: opaque schema leaf type (source file absent). -/
structure ChatLocation where
  id : Int

/-- Modelled from the spec: opaque schema leaf type (source file absent). -/
structure ShippingQuery where
  id : Int

/-- Modelled from the spec: opaque schema leaf type (source file absent). -/
structure PreCheckoutQuery where
  id : Int

/-- Modelled from the spec: opaque schema leaf type (source file absent). -/
structure PollAnswer where
  id : Int

/-- Modelled from the spec: the processed plain-message payload type (its source
file is absent; spec section 3 treats it as an out-of-scope schema type). -/
structure Message where
  message_id : Int

/-- Embedding of the enum ChatType of src/model/raw.rs (lines 170-179). -/
inductive ChatType where
  | Private : ChatType
  | Group : ChatType
  | SuperGroup : ChatType
  | Channel : ChatType

/-- Embedding of the field list of struct RawChat of src/model/raw.rs
(lines 100-166), parameterized over the message type Msg to break the
mutual recursion with RawMessage (in Rust, Box of RawMessage).  The Rust
field named type (renamed chat_type by serde) keeps the name chat_type. -/
structure RawChatG (Msg : Type) where
  id : Int
  chat_type : ChatType
  title : Option String
  username : Option String
  first_name : Option String
  last_name : Option String
  photo : Option ChatPhoto
  bio : Option String
  description : Option String
  invite_link : Option String
  pinned_message : Option Msg
  permissions : Option ChatPermissions
  slow_mode_delay : Option Nat
  sticker_set_name : Option String
  can_set_sticker_set : Option Bool
  linked_chat_id : Option Int
  location : Option ChatLocation

/-- Embedding of the field list of struct RawMessage of src/model/raw.rs
(lines 26-96), parameterized over Self (the recursive occurrences behind
Box) and Chat (RawChat) to break recursion.  The Rust field named from is
renamed from_user because from is reserved in Lean. -/
structure RawMessageG (Self Chat : Type) where
  message_id : Int
  from_user : Option User
  sender_chat : Option Chat
  date : Int
  chat : Chat
  forward_from : Option User
  forward_from_chat : Option Chat
  forward_from_message_id : Option Int
  forward_signature : Option String
  forward_sender_name : Option String
  forward_date : Option Int
  reply_to_message : Option Self
  via_bot : Option User
  edit_date : Option Int
  media_group_id : Option String
  author_signature : Option String
  text : Option String
  entities : Option (List MessageEntity)
  caption_entities : Option (List MessageEntity)
  audio : Option Audio
  document : Option Document
  animation : Option Animation
  game : Option Game
  photo : Option (List PhotoSize)
  sticker : Option Sticker
  video : Option Video
  voice : Option Voice
  video_note : Option VideoNote
  caption : Option String
  contact : Option Contact
  location : Option Location
  venue : Option Venue
  poll : Option Poll
  dice : Option Dice
  new_chat_members : Option (List User)
  left_chat_member : Option User
  new_chat_title : Option String
  new_chat_photo : Option (List PhotoSize)
  delete_chat_photo : Bool
  group_chat_created : Bool
  supergroup_chat_created : Bool
  channel_chat_created : Bool
  migrate_to_chat_id : Option Int
  migrate_from_chat_id : Option Int
  pinned_message : Option Self
  invoice : Option Invoice
  successful_payment : Option SuccessfulPayment
  connected_website : Option String
  passport_data : Option PassportData
  proximity_alert_triggered : Option ProximityAlertTriggered
  reply_markup : Option InlineKeyboardMarkup

/-- Tying the recursive knot of RawMessage: a RawMessage is a RawMessageG
whose recursive positions are RawMessage itself and whose chats are
RawChatG RawMessage, exactly as in src/model/raw.rs. -/
inductive RawMessage where
  | mk : RawMessageG RawMessage (RawChatG RawMessage) → RawMessage

/-- Embedding of struct RawChat of src/model/raw.rs (lines 100-166). -/
abbrev RawChat : Type := RawChatG RawMessage

/-- Embedding of struct InlineQuery of src/model/inline.rs (lines 5-16).
The Rust field named from is renamed from_user (reserved word). -/
structure InlineQuery where
  id : String
  from_user : User
  location : Option Location
  query : String
  offset : String

/-- Embedding of struct ChosenInlineResult of src/model/inline.rs
(lines 19-32).  The Rust field named from is renamed from_user. -/
structure ChosenInlineResult where
  result_id : String
  from_user : User
  location : Option Location
  query : String
  inline_message_id : Option String

/-- Embedding of struct CallbackQuery of src/model/other.rs (lines 5-13).
The Rust field named from is renamed from_user. -/
structure CallbackQuery where
  id : String
  from_user : User
  message : Option Message
  inline_message_id : Option Message
  chat_instance : String
  data : Option String
  game_short_name : Option String

/-- Embedding of struct RawUpdate of src/model/raw.rs (lines 183-196):
an update identifier plus eleven optional payload fields, in source order. -/
structure RawUpdate where
  update_id : Int
  message : Option RawMessage
  edited_message : Option RawMessage
  channel_post : Option RawMessage
  edited_channel_post : Option RawMessage
  inline_query : Option InlineQuery
  chosen_inline_result : Option ChosenInlineResult
  callback_query : Option CallbackQuery
  shipping_query : Option ShippingQuery
  pre_checkout_query : Option PreCheckoutQuery
  poll : Option Poll
  poll_answer : Option PollAnswer

/-- Presence bitmap of the eleven optional payload fields of a RawUpdate, in
the declaration order of src/model/raw.rs lines 185-195. -/
def RawUpdate.payloadPresence (u : RawUpdate) : List Bool :=
  [u.message.isSome, u.edited_message.isSome, u.channel_post.isSome,
   u.edited_channel_post.isSome, u.inline_query.isSome,
   u.chosen_inline_result.isSome, u.callback_query.isSome,
   u.shipping_query.isSome, u.pre_checkout_query.isSome, u.poll.isSome,
   u.poll_answer.isSome]

/-- Number of populated payload fields of a RawUpdate. -/
def RawUpdate.populatedCount (u : RawUpdate) : Nat :=
  (RawUpdate.payloadPresence u).count true

/-- Modelled from the spec: Context is an opaque per-invocation execution
handle owned by the dispatcher (spec section 3); its defining source file
(client module root) is absent from the provided sources. -/
structure Context where
  handle : Nat

/-- Modelled from the spec: the final outcome of a user callback task, either
normal unit completion or a failure (error or panic) identified by a code
(spec sections 4.1 and 7). -/
inductive Outcome where
  | ok : Outcome
  | failure : Nat → Outcome

/-- Modelled from the spec: FutureOutcome is the pending asynchronous task
returned by a user callback (its defining source file is absent).  It is
embedded as the number of polls on which it stays pending (its suspension
points) followed by its final outcome. -/
structure FutureOutcome where
  steps : Nat
  result : Outcome

/-- Modelled from the spec: the processed Update union, a tagged union of
exactly one populated variant among the eleven payload kinds (spec
section 3); its defining source file is absent from the provided sources. -/
inductive Update where
  | message : Message → Update
  | editedMessage : Message → Update
  | channelPost : Message → Update
  | editedChannelPost : Message → Update
  | inlineQuery : InlineQuery → Update
  | chosenInlineResult : ChosenInlineResult → Update
  | callbackQuery : CallbackQuery → Update
  | shippingQuery : ShippingQuery → Update
  | preCheckoutQuery : PreCheckoutQuery → Update
  | poll : Poll → Update
  | pollAnswer : PollAnswer → Update

/-- Embedding of the type alias MessageHandlerFunc of
src/client/event_handlers.rs line 6. -/
abbrev MessageHandlerFunc : Type := Context → Message → FutureOutcome

/-- Embedding of the type alias InlineQueryHandlerFunc of
src/client/event_handlers.rs line 7. -/
abbrev InlineQueryHandlerFunc : Type := Context → InlineQuery → FutureOutcome

/-- Embedding of the type alias InlineResultHandlerFunc of
src/client/event_handlers.rs line 8. -/
abbrev InlineResultHandlerFunc : Type := Context → ChosenInlineResult → FutureOutcome

/-- Embedding of the type alias EventHandlerFunc of
src/client/event_handlers.rs line 10. -/
abbrev EventHandlerFunc : Type := Context → Update → FutureOutcome

/-- Embedding of the type alias RawEventHandlerFunc of
src/client/event_handlers.rs lines 11-12. -/
abbrev RawEventHandlerFunc : Type := Context → RawUpdate → FutureOutcome

/-- Function type held by a handler slot for payload type P (the common shape
of the five aliases above). -/
abbrev HandlerFunc (P : Type) : Type := Context → P → FutureOutcome

/-- Heap of handler slots for payload type P.  Each Arc(Mutex(f)) allocation
of the source is one index i: slots[i] is the currently stored function and
locks[i] is whether the tokio mutex at i is currently held. -/
structure World (P : Type) where
  slots : List (HandlerFunc P)
  locks : List Bool

/-- Empty heap, before any handler is constructed. -/
def World.empty (P : Type) : World P :=
  ⟨[], []⟩

/-- Embedding of Arc::new(Mutex::new(f)): allocate a fresh unlocked slot
holding f; the returned index plays the role of the Arc pointer. -/
def mutexAlloc {P : Type} (w : World P) (f : HandlerFunc P) : Nat × World P :=
  (w.slots.length, ⟨w.slots ++ [f], w.locks ++ [false]⟩)

/-- Control state of the pinned async block returned by call (source lines
29-33 and its four copies): not yet polled, suspended awaiting the user
callback body while the mutex guard func is alive, or finished. -/
inductive TaskState (P : Type) where
  | start : Context → P → TaskState P
  | awaiting : FutureOutcome → TaskState P
  | done : Outcome → TaskState P

/-- The pending task returned by call: the captured clone of self (the slot
index) plus the control state of the async block. -/
structure CallTask (P : Type) where
  handlerIdx : Nat
  state : TaskState P

/-- Observable events of one poll of a call task: the application of the
currently held function to its two arguments, a pending poll of the user
callback body, or its completion. -/
inductive Event (P : Type) where
  | invoked : Context → P → Event P
  | polledPending : Event P
  | completed : Outcome → Event P

/-- One poll of the async block of call (src/client/event_handlers.rs lines
29-33; the same block appears verbatim in all five wrappers).  In the start
state the block executes h.inner.lock().await: if the mutex is held it stays
pending, otherwise it acquires the mutex, reads the held function, applies
it to (c, u) and moves to awaiting the returned future.  In the awaiting
state it polls that future; the mutex guard func is still alive, so the
mutex is released only when the future completes and the block ends. -/
def pollTask {P : Type} (w : World P) (t : CallTask P) :
    World P × CallTask P × List (Event P) :=
  match t.state with
  | TaskState.start c u =>
    match w.locks.getD t.handlerIdx true, w.slots.get? t.handlerIdx with
    | false, some f =>
      (⟨w.slots, w.locks.set t.handlerIdx true⟩,
       ⟨t.handlerIdx, TaskState.awaiting (f c u)⟩,
       [Event.invoked c u])
    | _, _ => (w, t, [])
  | TaskState.awaiting fut =>
    match fut.steps with
    | Nat.succ n =>
      (w, ⟨t.handlerIdx, TaskState.awaiting ⟨n, fut.result⟩⟩,
       [Event.polledPending])
    | 0 =>
      (⟨w.slots, w.locks.set t.handlerIdx false⟩,
       ⟨t.handlerIdx, TaskState.done fut.result⟩,
       [Event.completed fut.result])
  | TaskState.done _ => (w, t, [])

/-- Drive a call task for a given number of polls, accumulating events. -/
def drive {P : Type} (w : World P) (t : CallTask P) :
    Nat → World P × CallTask P × List (Event P)
  | 0 => (w, t, [])
  | Nat.succ n =>
    let r := pollTask w t
    let r2 := drive r.1 r.2.1 n
    (r2.1, r2.2.1, r.2.2 ++ r2.2.2)

/-- Contexts and payloads of the invoked events of an event list: one entry
per application of a held handler function. -/
def invokedEvents {P : Type} : List (Event P) → List (Context × P)
  | [] => []
  | Event.invoked c u :: rest => (c, u) :: invokedEvents rest
  | Event.polledPending :: rest => invokedEvents rest
  | Event.completed _ :: rest => invokedEvents rest

/-- Modelled from the spec: re-registration replaces the held function of a
handler slot through the same exclusive access (spec sections 3 and 5); the
replacing code is not among the provided sources.  If the mutex at i is held
the replacement cannot proceed yet (false); otherwise the slot is updated. -/
def replaceFunc {P : Type} (w : World P) (i : Nat) (g : HandlerFunc P) :
    World P × Bool :=
  match w.locks.getD i true with
  | true => (w, false)
  | false => (⟨w.slots.set i g, w.locks⟩, true)

/-- Single generic handler implementation parameterized over the payload
type, as described by spec section 4.1: a shared slot index. -/
structure GenericHandler (P : Type) where
  inner : Nat

/-- Generic construction: allocate a fresh mutex-protected slot. -/
def GenericHandler.new {P : Type} (w : World P) (handler : HandlerFunc P) :
    GenericHandler P × World P :=
  (⟨(mutexAlloc w handler).1⟩, (mutexAlloc w handler).2)

/-- Generic clone: clones the Arc, sharing the same slot. -/
def GenericHandler.clone {P : Type} (h : GenericHandler P) : GenericHandler P :=
  ⟨h.inner⟩

/-- Generic call: capture a clone of self and return the not-yet-polled
async block. -/
def GenericHandler.call {P : Type} (h : GenericHandler P) (c : Context)
    (u : P) : CallTask P :=
  ⟨(GenericHandler.clone h).inner, TaskState.start c u⟩

/-- Embedding of struct EventHandler of src/client/event_handlers.rs lines
14-17: inner is the Arc(Mutex(EventHandlerFunc)) allocation, a slot index
into a World Update. -/
structure EventHandler where
  inner : Nat

/-- Embedding of EventHandler::new (source lines 20-25). -/
def EventHandler.new (w : World Update) (handler : EventHandlerFunc) :
    EventHandler × World Update :=
  (⟨(mutexAlloc w handler).1⟩, (mutexAlloc w handler).2)

/-- Embedding of the derived Clone of EventHandler (source line 14): clones
the inner Arc, sharing the same allocation. -/
def EventHandler.clone (h : EventHandler) : EventHandler :=
  ⟨h.inner⟩

/-- Embedding of EventHandler::call (source lines 27-34): clone self into
the async block and return it unpolled; its polling behaviour is pollTask. -/
def EventHandler.call (h : EventHandler) (c : Context) (u : Update) :
    CallTask Update :=
  ⟨(EventHandler.clone h).inner, TaskState.start c u⟩

/-- Embedding of struct RawEventHandler of src/client/event_handlers.rs
lines 37-40. -/
structure RawEventHandler where
  inner : Nat

/-- Embedding of RawEventHandler::new (source lines 43-48). -/
def RawEventHandler.new (w : World RawUpdate) (handler : RawEventHandlerFunc) :
    RawEventHandler × World RawUpdate :=
  (⟨(mutexAlloc w handler).1⟩, (mutexAlloc w handler).2)

/-- Embedding of the derived Clone of RawEventHandler (source line 37). -/
def RawEventHandler.clone (h : RawEventHandler) : RawEventHandler :=
  ⟨h.inner⟩

/-- Embedding of RawEventHandler::call (source lines 50-57). -/
def RawEventHandler.call (h : RawEventHandler) (c : Context) (u : RawUpdate) :
    CallTask RawUpdate :=
  ⟨(RawEventHandler.clone h).inner, TaskState.start c u⟩

/-- Embedding of struct MessageHandler of src/client/event_handlers.rs
lines 60-63. -/
structure MessageHandler where
  inner : Nat

/-- Embedding of MessageHandler::new (source lines 66-71). -/
def MessageHandler.new (w : World Message) (handler : MessageHandlerFunc) :
    MessageHandler × World Message :=
  (⟨(mutexAlloc w handler).1⟩, (mutexAlloc w handler).2)

/-- Embedding of the derived Clone of MessageHandler (source line 60). -/
def MessageHandler.clone (h : MessageHandler) : MessageHandler :=
  ⟨h.inner⟩

/-- Embedding of MessageHandler::call (source lines 73-80). -/
def MessageHandler.call (h : MessageHandler) (c : Context) (u : Message) :
    CallTask Message :=
  ⟨(MessageHandler.clone h).inner, TaskState.start c u⟩

/-- Embedding of the impl From(MessageHandlerFunc) for MessageHandler
(source lines 83-87): its body is Self::new(func). -/
def MessageHandler.fromFunc (w : World Message) (func : MessageHandlerFunc) :
    MessageHandler × World Message :=
  MessageHandler.new w func

/-- Embedding of struct InlineQueryHandler of src/client/event_handlers.rs
lines 89-92. -/
structure InlineQueryHandler where
  inner : Nat

/-- Embedding of InlineQueryHandler::new (source lines 95-100). -/
def InlineQueryHandler.new (w : World InlineQuery)
    (handler : InlineQueryHandlerFunc) : InlineQueryHandler × World InlineQuery :=
  (⟨(mutexAlloc w handler).1⟩, (mutexAlloc w handler).2)

/-- Embedding of the derived Clone of InlineQueryHandler (source line 89). -/
def InlineQueryHandler.clone (h : InlineQueryHandler) : InlineQueryHandler :=
  ⟨h.inner⟩

/-- Embedding of InlineQueryHandler::call (source lines 102-109). -/
def InlineQueryHandler.call (h : InlineQueryHandler) (c : Context)
    (u : InlineQuery) : CallTask InlineQuery :=
  ⟨(InlineQueryHandler.clone h).inner, TaskState.start c u⟩

/-- Embedding of the impl From(InlineQueryHandlerFunc) for InlineQueryHandler
(source lines 112-116): its body is Self::new(func). -/
def InlineQueryHandler.fromFunc (w : World InlineQuery)
    (func : InlineQueryHandlerFunc) : InlineQueryHandler × World InlineQuery :=
  InlineQueryHandler.new w func

/-- Embedding of struct InlineResultHandler of src/client/event_handlers.rs
lines 118-121. -/
structure InlineResultHandler where
  inner : Nat

/-- Embedding of InlineResultHandler::new (source lines 124-129). -/
def InlineResultHandler.new (w : World ChosenInlineResult)
    (handler : InlineResultHandlerFunc) :
    InlineResultHandler × World ChosenInlineResult :=
  (⟨(mutexAlloc w handler).1⟩, (mutexAlloc w handler).2)

/-- Embedding of the derived Clone of InlineResultHandler (source line 118). -/
def InlineResultHandler.clone (h : InlineResultHandler) : InlineResultHandler :=
  ⟨h.inner⟩

/-- Embedding of InlineResultHandler::call (source lines 131-138). -/
def InlineResultHandler.call (h : InlineResultHandler) (c : Context)
    (u : ChosenInlineResult) : CallTask ChosenInlineResult :=
  ⟨(InlineResultHandler.clone h).inner, TaskState.start c u⟩

/-- Embedding of the impl From(InlineResultHandlerFunc) for
InlineResultHandler (source lines 141-145): its body is Self::new(func). -/
def InlineResultHandler.fromFunc (w : World ChosenInlineResult)
    (func : InlineResultHandlerFunc) :
    InlineResultHandler × World ChosenInlineResult :=
  InlineResultHandler.new w func

/-- The five handler wrapper categories of src/client/event_handlers.rs. -/
inductive HandlerKind where
  | event : HandlerKind
  | rawEvent : HandlerKind
  | message : HandlerKind
  | inlineQuery : HandlerKind
  | inlineResult : HandlerKind

/-- Which wrapper categories provide a From conversion from their function
type in src/client/event_handlers.rs: impl blocks exist at lines 83-87
(MessageHandler), 112-116 (InlineQueryHandler) and 141-145
(InlineResultHandler); EventHandler and RawEventHandler have none. -/
def hasFromConversion : HandlerKind → Bool
  | HandlerKind.event => false
  | HandlerKind.rawEvent => false
  | HandlerKind.message => true
  | HandlerKind.inlineQuery => true
  | HandlerKind.inlineResult => true

/-- The eleven payload kinds of an update, in the field order of RawUpdate. -/
inductive UpdateKind where
  | message : UpdateKind
  | editedMessage : UpdateKind
  | channelPost : UpdateKind
  | editedChannelPost : UpdateKind
  | inlineQuery : UpdateKind
  | chosenInlineResult : UpdateKind
  | callbackQuery : UpdateKind
  | shippingQuery : UpdateKind
  | preCheckoutQuery : UpdateKind
  | poll : UpdateKind
  | pollAnswer : UpdateKind

/-- Modelled from the spec: classification of a raw update by the external
dispatcher (spec section 4.2, not among the provided sources): check the
payload fields in their fixed declaration order and return the first
populated kind, or none when no field is populated. -/
def classifyRaw (u : RawUpdate) : Option UpdateKind :=
  if u.message.isSome then some UpdateKind.message
  else if u.edited_message.isSome then some UpdateKind.editedMessage
  else if u.channel_post.isSome then some UpdateKind.channelPost
  else if u.edited_channel_post.isSome then some UpdateKind.editedChannelPost
  else if u.inline_query.isSome then some UpdateKind.inlineQuery
  else if u.chosen_inline_result.isSome then some UpdateKind.chosenInlineResult
  else if u.callback_query.isSome then some UpdateKind.callbackQuery
  else if u.shipping_query.isSome then some UpdateKind.shippingQuery
  else if u.pre_checkout_query.isSome then some UpdateKind.preCheckoutQuery
  else if u.poll.isSome then some UpdateKind.poll
  else if u.poll_answer.isSome then some UpdateKind.pollAnswer
  else none

/-- Drive one full invocation of the handler at slot i to completion: look up
the currently held function to size the fuel, then poll the call task until
it finishes, returning the resulting world. -/
def driveCall {P : Type} (w : World P) (i : Nat) (c : Context) (u : P) :
    World P :=
  match w.slots.get? i with
  | some f => (drive w ⟨i, TaskState.start c u⟩ ((f c u).steps + 2)).1
  | none => w

/-- Run a sequence of complete invocations of the handler at slot i, one
after the other, threading the world through. -/
def runSeq {P : Type} (w : World P) (i : Nat) :
    List (Context × P) → World P
  | [] => w
  | p :: rest => runSeq (driveCall w i p.1 p.2) i rest

/-- Unfolding of one poll inside drive. -/
theorem drive_succ {P : Type} (w : World P) (t : CallTask P) (n : Nat) :
    drive w t (n + 1) =
      ((drive (pollTask w t).1 (pollTask w t).2.1 n).1,
       (drive (pollTask w t).1 (pollTask w t).2.1 n).2.1,
       (pollTask w t).2.2 ++ (drive (pollTask w t).1 (pollTask w t).2.1 n).2.2) :=
  rfl

/-- First poll of a call task on a free mutex: the lock is acquired, the held
function is read and applied to the arguments, and the task moves to
awaiting the callback body with the guard still alive. -/
theorem pollTask_start_free {P : Type} (f : HandlerFunc P) (c : Context)
    (u : P) :
    pollTask ⟨[f], [false]⟩ ⟨0, TaskState.start c u⟩ =
      (⟨[f], [true]⟩, ⟨0, TaskState.awaiting (f c u)⟩, [Event.invoked c u]) :=
  rfl

/-- Polling a call task while the mutex is held makes no progress: the
lock().await stays pending and nothing is invoked. -/
theorem pollTask_start_blocked {P : Type} (s : List (HandlerFunc P))
    (c : Context) (u : P) :
    pollTask ⟨s, [true]⟩ ⟨0, TaskState.start c u⟩ =
      (⟨s, [true]⟩, ⟨0, TaskState.start c u⟩, []) :=
  rfl

/-- Driving an awaiting task with the lock held: the callback body is polled
through its pending steps, then completes, and only then is the mutex
released. -/
theorem drive_awaiting {P : Type} (f : HandlerFunc P) (fut : FutureOutcome) :
    drive ⟨[f], [true]⟩ ⟨0, TaskState.awaiting fut⟩ (fut.steps + 1) =
      (⟨[f], [false]⟩, ⟨0, TaskState.done fut.result⟩,
       List.replicate fut.steps Event.polledPending ++
         [Event.completed fut.result]) := by
  obtain ⟨n, r⟩ := fut
  induction n with
  | zero => rfl
  | succ n ih =>
    rw [drive_succ]
    have hp : pollTask (⟨[f], [true]⟩ : World P)
        ⟨0, TaskState.awaiting ⟨n + 1, r⟩⟩ =
        (⟨[f], [true]⟩, ⟨0, TaskState.awaiting ⟨n, r⟩⟩,
         [Event.polledPending]) := rfl
    rw [hp]
    simp only [ih, List.replicate, List.cons_append]
    rfl

/-- Complete run of one invocation: starting from the post-construction world
(one slot holding f, unlocked), driving the call task with fuel equal to the
callback's pending steps plus two finishes the task, invokes f on (c, u)
exactly at the acquisition step, completes with the callback's own result
and restores the world (lock released, slot unchanged). -/
theorem call_complete {P : Type} (f : HandlerFunc P) (c : Context) (u : P) :
    drive ⟨[f], [false]⟩ ⟨0, TaskState.start c u⟩ ((f c u).steps + 2) =
      (⟨[f], [false]⟩, ⟨0, TaskState.done (f c u).result⟩,
       Event.invoked c u ::
         (List.replicate (f c u).steps Event.polledPending ++
           [Event.completed (f c u).result])) := by
  show drive ⟨[f], [false]⟩ ⟨0, TaskState.start c u⟩ ((f c u).steps + 1 + 1) = _
  rw [drive_succ, pollTask_start_free]
  rw [show ((⟨[f], [true]⟩, ⟨0, TaskState.awaiting (f c u)⟩,
      [Event.invoked c u]) :
      World P × CallTask P × List (Event P)).1 = ⟨[f], [true]⟩ from rfl]
  rw [show ((⟨[f], [true]⟩, ⟨0, TaskState.awaiting (f c u)⟩,
      [Event.invoked c u]) :
      World P × CallTask P × List (Event P)).2.1 =
      ⟨0, TaskState.awaiting (f c u)⟩ from rfl]
  rw [drive_awaiting f (f c u)]
  rfl

/-- A run of pending polls followed by a completion contains no invocation. -/
theorem invokedEvents_tail {P : Type} (n : Nat) (r : Outcome) :
    invokedEvents (List.replicate n (Event.polledPending : Event P) ++
      [Event.completed r]) = [] := by
  induction n with
  | zero => rfl
  | succ n ih =>
    simpa [List.replicate, invokedEvents] using ih

/-- Driving one invocation to completion invokes the held function exactly
once, on exactly the supplied context and payload. -/
theorem exec_invoked_once {P : Type} (f : HandlerFunc P) (c : Context)
    (u : P) :
    invokedEvents
      (drive ⟨[f], [false]⟩ ⟨0, TaskState.start c u⟩
        ((f c u).steps + 2)).2.2 = [(c, u)] := by
  rw [call_complete]
  simp only [invokedEvents, invokedEvents_tail]

/-- Driving one invocation to completion finishes with exactly the outcome of
the user callback's own task, untranslated. -/
theorem exec_final_state {P : Type} (f : HandlerFunc P) (c : Context)
    (u : P) :
    (drive ⟨[f], [false]⟩ ⟨0, TaskState.start c u⟩
      ((f c u).steps + 2)).2.1.state = TaskState.done ((f c u).result) := by
  rw [call_complete]

/-- Driving one invocation to completion restores the world: the slot still
holds the same function and the mutex is free again. -/
theorem exec_world_after {P : Type} (f : HandlerFunc P) (c : Context)
    (u : P) :
    (drive ⟨[f], [false]⟩ ⟨0, TaskState.start c u⟩
      ((f c u).steps + 2)).1 = ⟨[f], [false]⟩ := by
  rw [call_complete]

/-- After a completed invocation the mutex is free. -/
theorem exec_locks_after {P : Type} (f : HandlerFunc P) (c : Context)
    (u : P) :
    (drive ⟨[f], [false]⟩ ⟨0, TaskState.start c u⟩
      ((f c u).steps + 2)).1.locks = [false] := by
  rw [call_complete]

/-- A failure in the final state of a completed invocation can only be the
failure produced by the user callback itself. -/
theorem failure_origin {P : Type} (f : HandlerFunc P) (c : Context) (u : P)
    (e : Nat)
    (h : (drive ⟨[f], [false]⟩ ⟨0, TaskState.start c u⟩
      ((f c u).steps + 2)).2.1.state = TaskState.done (Outcome.failure e)) :
    (f c u).result = Outcome.failure e := by
  rw [exec_final_state] at h
  simpa using h

/-- One complete invocation through driveCall leaves the post-construction
world unchanged. -/
theorem driveCall_frame {P : Type} (f : HandlerFunc P) (c : Context)
    (u : P) :
    driveCall ⟨[f], [false]⟩ 0 c u = ⟨[f], [false]⟩ :=
  exec_world_after f c u

/-- Any sequence of complete invocations with no interleaved replacement
leaves the post-construction world unchanged. -/
theorem runSeq_frame {P : Type} (f : HandlerFunc P)
    (l : List (Context × P)) :
    runSeq ⟨[f], [false]⟩ 0 l = ⟨[f], [false]⟩ := by
  induction l with
  | nil => rfl
  | cons p rest ih =>
    show runSeq (driveCall ⟨[f], [false]⟩ 0 p.1 p.2) 0 rest = _
    rw [driveCall_frame]
    exact ih

/-- C1, counterexample: the claim states that the exclusive access taken by
call to read the held function is released before the callback body is
awaited, so no lock is held across the callback's suspension point and a
suspended callback never blocks a concurrent invocation or replacement.  At
a concrete input this is false: construct an EventHandler whose callback
suspends once, poll one invocation once (the callback is now suspended);
the mutex is still held, polling a second concurrent invocation of the same
handler makes no progress and produces no event, and a concurrent
replacement of the held function cannot proceed.  In the source (lines
29-33) the MutexGuard func is alive across fut.await and is dropped only
when the async block ends. -/
theorem claim_C1_counterexample :
    (pollTask
      (EventHandler.new (World.empty Update)
        (fun _ _ => ⟨1, Outcome.ok⟩)).2
      (EventHandler.call ⟨0⟩ ⟨0⟩ (Update.message ⟨0⟩))).1.locks = [true] ∧
    pollTask
      (pollTask
        (EventHandler.new (World.empty Update)
          (fun _ _ => ⟨1, Outcome.ok⟩)).2
        (EventHandler.call ⟨0⟩ ⟨0⟩ (Update.message ⟨0⟩))).1
      (EventHandler.call ⟨0⟩ ⟨1⟩ (Update.message ⟨1⟩)) =
      ((pollTask
        (EventHandler.new (World.empty Update)
          (fun _ _ => ⟨1, Outcome.ok⟩)).2
        (EventHandler.call ⟨0⟩ ⟨0⟩ (Update.message ⟨0⟩))).1,
       ⟨0, TaskState.start ⟨1⟩ (Update.message ⟨1⟩)⟩, []) ∧
    (replaceFunc
      (pollTask
        (EventHandler.new (World.empty Update)
          (fun _ _ => ⟨1, Outcome.ok⟩)).2
        (EventHandler.call ⟨0⟩ ⟨0⟩ (Update.message ⟨0⟩))).1
      0 (fun _ _ => ⟨0, Outcome.ok⟩)).2 = false :=
  ⟨rfl, rfl, rfl⟩

/-- C1, amended: for every handler wrapper, the exclusive access acquired by
call to read the currently-held function is held while the callback body's
returned task is awaited and is released only when that task completes; so
while a callback with at least one pending step is suspended, the lock is
held, a concurrent invocation of the same handler makes no progress, and a
concurrent replacement of the held function cannot proceed; the lock is
free again once the invocation is driven to completion.  One conjunct per
wrapper: EventHandler, RawEventHandler, MessageHandler, InlineQueryHandler,
InlineResultHandler. -/
theorem claim_C1_amended :
    (∀ (f g : EventHandlerFunc) (c c2 : Context) (u u2 : Update),
      0 < (f c u).steps →
      ((pollTask (EventHandler.new (World.empty Update) f).2
          (EventHandler.call ⟨0⟩ c u)).1.locks = [true] ∧
       (pollTask (EventHandler.new (World.empty Update) f).2
          (EventHandler.call ⟨0⟩ c u)).2.1.state =
          TaskState.awaiting (f c u) ∧
       pollTask
          (pollTask (EventHandler.new (World.empty Update) f).2
            (EventHandler.call ⟨0⟩ c u)).1
          (EventHandler.call ⟨0⟩ c2 u2) =
          ((pollTask (EventHandler.new (World.empty Update) f).2
            (EventHandler.call ⟨0⟩ c u)).1,
           ⟨0, TaskState.start c2 u2⟩, []) ∧
       (replaceFunc
          (pollTask (EventHandler.new (World.empty Update) f).2
            (EventHandler.call ⟨0⟩ c u)).1 0 g).2 = false ∧
       (drive (EventHandler.new (World.empty Update) f).2
          (EventHandler.call ⟨0⟩ c u) ((f c u).steps + 2)).1.locks =
          [false])) ∧
    (∀ (f g : RawEventHandlerFunc) (c c2 : Context) (u u2 : RawUpdate),
      0 < (f c u).steps →
      ((pollTask (RawEventHandler.new (World.empty RawUpdate) f).2
          (RawEventHandler.call ⟨0⟩ c u)).1.locks = [true] ∧
       (pollTask (RawEventHandler.new (World.empty RawUpdate) f).2
          (RawEventHandler.call ⟨0⟩ c u)).2.1.state =
          TaskState.awaiting (f c u) ∧
       pollTask
          (pollTask (RawEventHandler.new (World.empty RawUpdate) f).2
            (RawEventHandler.call ⟨0⟩ c u)).1
          (RawEventHandler.call ⟨0⟩ c2 u2) =
          ((pollTask (RawEventHandler.new (World.empty RawUpdate) f).2
            (RawEventHandler.call ⟨0⟩ c u)).1,
           ⟨0, TaskState.start c2 u2⟩, []) ∧
       (replaceFunc
          (pollTask (RawEventHandler.new (World.empty RawUpdate) f).2
            (RawEventHandler.call ⟨0⟩ c u)).1 0 g).2 = false ∧
       (drive (RawEventHandler.new (World.empty RawUpdate) f).2
          (RawEventHandler.call ⟨0⟩ c u) ((f c u).steps + 2)).1.locks =
          [false])) ∧
    (∀ (f g : MessageHandlerFunc) (c c2 : Context) (u u2 : Message),
      0 < (f c u).steps →
      ((pollTask (MessageHandler.new (World.empty Message) f).2
          (MessageHandler.call ⟨0⟩ c u)).1.locks = [true] ∧
       (pollTask (MessageHandler.new (World.empty Message) f).2
          (MessageHandler.call ⟨0⟩ c u)).2.1.state =
          TaskState.awaiting (f c u) ∧
       pollTask
          (pollTask (MessageHandler.new (World.empty Message) f).2
            (MessageHandler.call ⟨0⟩ c u)).1
          (MessageHandler.call ⟨0⟩ c2 u2) =
          ((pollTask (MessageHandler.new (World.empty Message) f).2
            (MessageHandler.call ⟨0⟩ c u)).1,
           ⟨0, TaskState.start c2 u2⟩, []) ∧
       (replaceFunc
          (pollTask (MessageHandler.new (World.empty Message) f).2
            (MessageHandler.call ⟨0⟩ c u)).1 0 g).2 = false ∧
       (drive (MessageHandler.new (World.empty Message) f).2
          (MessageHandler.call ⟨0⟩ c u) ((f c u).steps + 2)).1.locks =
          [false])) ∧
    (∀ (f g : InlineQueryHandlerFunc) (c c2 : Context) (u u2 : InlineQuery),
      0 < (f c u).steps →
      ((pollTask (InlineQueryHandler.new (World.empty InlineQuery) f).2
          (InlineQueryHandler.call ⟨0⟩ c u)).1.locks = [true] ∧
       (pollTask (InlineQueryHandler.new (World.empty InlineQuery) f).2
          (InlineQueryHandler.call ⟨0⟩ c u)).2.1.state =
          TaskState.awaiting (f c u) ∧
       pollTask
          (pollTask (InlineQueryHandler.new (World.empty InlineQuery) f).2
            (InlineQueryHandler.call ⟨0⟩ c u)).1
          (InlineQueryHandler.call ⟨0⟩ c2 u2) =
          ((pollTask (InlineQueryHandler.new (World.empty InlineQuery) f).2
            (InlineQueryHandler.call ⟨0⟩ c u)).1,
           ⟨0, TaskState.start c2 u2⟩, []) ∧
       (replaceFunc
          (pollTask (InlineQueryHandler.new (World.empty InlineQuery) f).2
            (InlineQueryHandler.call ⟨0⟩ c u)).1 0 g).2 = false ∧
       (drive (InlineQueryHandler.new (World.empty InlineQuery) f).2
          (InlineQueryHandler.call ⟨0⟩ c u) ((f c u).steps + 2)).1.locks =
          [false])) ∧
    (∀ (f g : InlineResultHandlerFunc) (c c2 : Context)
        (u u2 : ChosenInlineResult),
      0 < (f c u).steps →
      ((pollTask
          (InlineResultHandler.new (World.empty ChosenInlineResult) f).2
          (InlineResultHandler.call ⟨0⟩ c u)).1.locks = [true] ∧
       (pollTask
          (InlineResultHandler.new (World.empty ChosenInlineResult) f).2
          (InlineResultHandler.call ⟨0⟩ c u)).2.1.state =
          TaskState.awaiting (f c u) ∧
       pollTask
          (pollTask
            (InlineResultHandler.new (World.empty ChosenInlineResult) f).2
            (InlineResultHandler.call ⟨0⟩ c u)).1
          (InlineResultHandler.call ⟨0⟩ c2 u2) =
          ((pollTask
            (InlineResultHandler.new (World.empty ChosenInlineResult) f).2
            (InlineResultHandler.call ⟨0⟩ c u)).1,
           ⟨0, TaskState.start c2 u2⟩, []) ∧
       (replaceFunc
          (pollTask
            (InlineResultHandler.new (World.empty ChosenInlineResult) f).2
            (InlineResultHandler.call ⟨0⟩ c u)).1 0 g).2 = false ∧
       (drive (InlineResultHandler.new (World.empty ChosenInlineResult) f).2
          (InlineResultHandler.call ⟨0⟩ c u)
          ((f c u).steps + 2)).1.locks = [false])) :=
  ⟨fun f _ c _ u _ _ => ⟨rfl, rfl, rfl, rfl, exec_locks_after f c u⟩,
   fun f _ c _ u _ _ => ⟨rfl, rfl, rfl, rfl, exec_locks_after f c u⟩,
   fun f _ c _ u _ _ => ⟨rfl, rfl, rfl, rfl, exec_locks_after f c u⟩,
   fun f _ c _ u _ _ => ⟨rfl, rfl, rfl, rfl, exec_locks_after f c u⟩,
   fun f _ c _ u _ _ => ⟨rfl, rfl, rfl, rfl, exec_locks_after f c u⟩⟩

/-- C1, witness for the amended theorem: a concrete EventHandler callback
with one pending step satisfies the suspension hypothesis, and after the
completed run the lock is free. -/
theorem claim_C1_amended_witness :
    0 < ((fun (_ : Context) (_ : Update) =>
        (⟨1, Outcome.ok⟩ : FutureOutcome)) ⟨0⟩ (Update.message ⟨0⟩)).steps ∧
    (drive
      (EventHandler.new (World.empty Update)
        (fun _ _ => ⟨1, Outcome.ok⟩)).2
      (EventHandler.call ⟨0⟩ ⟨0⟩ (Update.message ⟨0⟩)) 3).1.locks =
      [false] :=
  ⟨by decide,
   (claim_C1_amended.1 (fun _ _ => ⟨1, Outcome.ok⟩)
     (fun _ _ => ⟨0, Outcome.ok⟩) ⟨0⟩ ⟨0⟩ (Update.message ⟨0⟩)
     (Update.message ⟨0⟩) (by decide)).2.2.2.2⟩

/-- C2: for every payload category, every function F of the matching
signature, every context and payload, construction via new yields a fresh
slot holding F; call returns the not-yet-started task without executing F
(driving it zero polls produces no invocation); driving the task to
completion applies F exactly once, to exactly the supplied context and
payload, and finishes with F's own outcome.  One conjunct per wrapper. -/
theorem claim_C2_exec_once :
    (∀ (f : EventHandlerFunc) (c : Context) (u : Update),
      EventHandler.new (World.empty Update) f = (⟨0⟩, ⟨[f], [false]⟩) ∧
      EventHandler.call ⟨0⟩ c u = ⟨0, TaskState.start c u⟩ ∧
      invokedEvents
        (drive ⟨[f], [false]⟩ (EventHandler.call ⟨0⟩ c u) 0).2.2 = [] ∧
      invokedEvents
        (drive ⟨[f], [false]⟩ (EventHandler.call ⟨0⟩ c u)
          ((f c u).steps + 2)).2.2 = [(c, u)] ∧
      (drive ⟨[f], [false]⟩ (EventHandler.call ⟨0⟩ c u)
        ((f c u).steps + 2)).2.1.state = TaskState.done ((f c u).result)) ∧
    (∀ (f : RawEventHandlerFunc) (c : Context) (u : RawUpdate),
      RawEventHandler.new (World.empty RawUpdate) f = (⟨0⟩, ⟨[f], [false]⟩) ∧
      RawEventHandler.call ⟨0⟩ c u = ⟨0, TaskState.start c u⟩ ∧
      invokedEvents
        (drive ⟨[f], [false]⟩ (RawEventHandler.call ⟨0⟩ c u) 0).2.2 = [] ∧
      invokedEvents
        (drive ⟨[f], [false]⟩ (RawEventHandler.call ⟨0⟩ c u)
          ((f c u).steps + 2)).2.2 = [(c, u)] ∧
      (drive ⟨[f], [false]⟩ (RawEventHandler.call ⟨0⟩ c u)
        ((f c u).steps + 2)).2.1.state = TaskState.done ((f c u).result)) ∧
    (∀ (f : MessageHandlerFunc) (c : Context) (u : Message),
      MessageHandler.new (World.empty Message) f = (⟨0⟩, ⟨[f], [false]⟩) ∧
      MessageHandler.call ⟨0⟩ c u = ⟨0, TaskState.start c u⟩ ∧
      invokedEvents
        (drive ⟨[f], [false]⟩ (MessageHandler.call ⟨0⟩ c u) 0).2.2 = [] ∧
      invokedEvents
        (drive ⟨[f], [false]⟩ (MessageHandler.call ⟨0⟩ c u)
          ((f c u).steps + 2)).2.2 = [(c, u)] ∧
      (drive ⟨[f], [false]⟩ (MessageHandler.call ⟨0⟩ c u)
        ((f c u).steps + 2)).2.1.state = TaskState.done ((f c u).result)) ∧
    (∀ (f : InlineQueryHandlerFunc) (c : Context) (u : InlineQuery),
      InlineQueryHandler.new (World.empty InlineQuery) f =
        (⟨0⟩, ⟨[f], [false]⟩) ∧
      InlineQueryHandler.call ⟨0⟩ c u = ⟨0, TaskState.start c u⟩ ∧
      invokedEvents
        (drive ⟨[f], [false]⟩ (InlineQueryHandler.call ⟨0⟩ c u) 0).2.2 = [] ∧
      invokedEvents
        (drive ⟨[f], [false]⟩ (InlineQueryHandler.call ⟨0⟩ c u)
          ((f c u).steps + 2)).2.2 = [(c, u)] ∧
      (drive ⟨[f], [false]⟩ (InlineQueryHandler.call ⟨0⟩ c u)
        ((f c u).steps + 2)).2.1.state = TaskState.done ((f c u).result)) ∧
    (∀ (f : InlineResultHandlerFunc) (c : Context) (u : ChosenInlineResult),
      InlineResultHandler.new (World.empty ChosenInlineResult) f =
        (⟨0⟩, ⟨[f], [false]⟩) ∧
      InlineResultHandler.call ⟨0⟩ c u = ⟨0, TaskState.start c u⟩ ∧
      invokedEvents
        (drive ⟨[f], [false]⟩ (InlineResultHandler.call ⟨0⟩ c u) 0).2.2 =
        [] ∧
      invokedEvents
        (drive ⟨[f], [false]⟩ (InlineResultHandler.call ⟨0⟩ c u)
          ((f c u).steps + 2)).2.2 = [(c, u)] ∧
      (drive ⟨[f], [false]⟩ (InlineResultHandler.call ⟨0⟩ c u)
        ((f c u).steps + 2)).2.1.state = TaskState.done ((f c u).result)) :=
  ⟨fun f c u =>
    ⟨rfl, rfl, rfl, exec_invoked_once f c u, exec_final_state f c u⟩,
   fun f c u =>
    ⟨rfl, rfl, rfl, exec_invoked_once f c u, exec_final_state f c u⟩,
   fun f c u =>
    ⟨rfl, rfl, rfl, exec_invoked_once f c u, exec_final_state f c u⟩,
   fun f c u =>
    ⟨rfl, rfl, rfl, exec_invoked_once f c u, exec_final_state f c u⟩,
   fun f c u =>
    ⟨rfl, rfl, rfl, exec_invoked_once f c u, exec_final_state f c u⟩⟩

/-- C3: for every handler wrapper, the task returned by call completes with
exactly the outcome of the user callback's own task, with no catching,
translation or dropping by the wrapper; in particular a callback that fails
with code e after n pending steps surfaces exactly failure e.  Two
conjuncts per wrapper: general propagation, and a failing callback. -/
theorem claim_C3_failure_propagation :
    ((∀ (f : EventHandlerFunc) (c : Context) (u : Update),
      (drive ⟨[f], [false]⟩ (EventHandler.call ⟨0⟩ c u)
        ((f c u).steps + 2)).2.1.state = TaskState.done ((f c u).result)) ∧
     (∀ (e n : Nat) (c : Context) (u : Update),
      (drive ⟨[fun _ _ => ⟨n, Outcome.failure e⟩], [false]⟩
        (EventHandler.call ⟨0⟩ c u) (n + 2)).2.1.state =
        TaskState.done (Outcome.failure e))) ∧
    ((∀ (f : RawEventHandlerFunc) (c : Context) (u : RawUpdate),
      (drive ⟨[f], [false]⟩ (RawEventHandler.call ⟨0⟩ c u)
        ((f c u).steps + 2)).2.1.state = TaskState.done ((f c u).result)) ∧
     (∀ (e n : Nat) (c : Context) (u : RawUpdate),
      (drive ⟨[fun _ _ => ⟨n, Outcome.failure e⟩], [false]⟩
        (RawEventHandler.call ⟨0⟩ c u) (n + 2)).2.1.state =
        TaskState.done (Outcome.failure e))) ∧
    ((∀ (f : MessageHandlerFunc) (c : Context) (u : Message),
      (drive ⟨[f], [false]⟩ (MessageHandler.call ⟨0⟩ c u)
        ((f c u).steps + 2)).2.1.state = TaskState.done ((f c u).result)) ∧
     (∀ (e n : Nat) (c : Context) (u : Message),
      (drive ⟨[fun _ _ => ⟨n, Outcome.failure e⟩], [false]⟩
        (MessageHandler.call ⟨0⟩ c u) (n + 2)).2.1.state =
        TaskState.done (Outcome.failure e))) ∧
    ((∀ (f : InlineQueryHandlerFunc) (c : Context) (u : InlineQuery),
      (drive ⟨[f], [false]⟩ (InlineQueryHandler.call ⟨0⟩ c u)
        ((f c u).steps + 2)).2.1.state = TaskState.done ((f c u).result)) ∧
     (∀ (e n : Nat) (c : Context) (u : InlineQuery),
      (drive ⟨[fun _ _ => ⟨n, Outcome.failure e⟩], [false]⟩
        (InlineQueryHandler.call ⟨0⟩ c u) (n + 2)).2.1.state =
        TaskState.done (Outcome.failure e))) ∧
    ((∀ (f : InlineResultHandlerFunc) (c : Context)
        (u : ChosenInlineResult),
      (drive ⟨[f], [false]⟩ (InlineResultHandler.call ⟨0⟩ c u)
        ((f c u).steps + 2)).2.1.state = TaskState.done ((f c u).result)) ∧
     (∀ (e n : Nat) (c : Context) (u : ChosenInlineResult),
      (drive ⟨[fun _ _ => ⟨n, Outcome.failure e⟩], [false]⟩
        (InlineResultHandler.call ⟨0⟩ c u) (n + 2)).2.1.state =
        TaskState.done (Outcome.failure e))) :=
  ⟨⟨fun f c u => exec_final_state f c u,
    fun e n c u => exec_final_state (fun _ _ => ⟨n, Outcome.failure e⟩) c u⟩,
   ⟨fun f c u => exec_final_state f c u,
    fun e n c u => exec_final_state (fun _ _ => ⟨n, Outcome.failure e⟩) c u⟩,
   ⟨fun f c u => exec_final_state f c u,
    fun e n c u => exec_final_state (fun _ _ => ⟨n, Outcome.failure e⟩) c u⟩,
   ⟨fun f c u => exec_final_state f c u,
    fun e n c u => exec_final_state (fun _ _ => ⟨n, Outcome.failure e⟩) c u⟩,
   ⟨fun f c u => exec_final_state f c u,
    fun e n c u => exec_final_state (fun _ _ => ⟨n, Outcome.failure e⟩) c u⟩⟩

/-- C4: for every handler wrapper, construction is total (new always yields
a handler whose slot is a fresh unlocked allocation holding the given
function, for any world and any function of the matching signature), call
itself cannot fail (for every handler, context and payload it returns the
pending start-state task), and the only possible failure of the returned
task originates inside the user callback: if the completed task ends in a
failure, that failure is the callback's own result.  For the three wrappers
with a From conversion, the conversion is as total as new (it is new).  One
group of conjuncts per wrapper. -/
theorem claim_C4_totality :
    ((∀ (w : World Update) (f : EventHandlerFunc),
      (EventHandler.new w f).1.inner = w.slots.length ∧
      (EventHandler.new w f).2.slots = w.slots ++ [f] ∧
      (EventHandler.new w f).2.locks = w.locks ++ [false]) ∧
     (∀ (h : EventHandler) (c : Context) (u : Update),
      EventHandler.call h c u = ⟨h.inner, TaskState.start c u⟩) ∧
     (∀ (f : EventHandlerFunc) (c : Context) (u : Update) (e : Nat),
      (drive ⟨[f], [false]⟩ (EventHandler.call ⟨0⟩ c u)
        ((f c u).steps + 2)).2.1.state =
        TaskState.done (Outcome.failure e) →
      (f c u).result = Outcome.failure e)) ∧
    ((∀ (w : World RawUpdate) (f : RawEventHandlerFunc),
      (RawEventHandler.new w f).1.inner = w.slots.length ∧
      (RawEventHandler.new w f).2.slots = w.slots ++ [f] ∧
      (RawEventHandler.new w f).2.locks = w.locks ++ [false]) ∧
     (∀ (h : RawEventHandler) (c : Context) (u : RawUpdate),
      RawEventHandler.call h c u = ⟨h.inner, TaskState.start c u⟩) ∧
     (∀ (f : RawEventHandlerFunc) (c : Context) (u : RawUpdate) (e : Nat),
      (drive ⟨[f], [false]⟩ (RawEventHandler.call ⟨0⟩ c u)
        ((f c u).steps + 2)).2.1.state =
        TaskState.done (Outcome.failure e) →
      (f c u).result = Outcome.failure e)) ∧
    ((∀ (w : World Message) (f : MessageHandlerFunc),
      (MessageHandler.new w f).1.inner = w.slots.length ∧
      (MessageHandler.new w f).2.slots = w.slots ++ [f] ∧
      (MessageHandler.new w f).2.locks = w.locks ++ [false] ∧
      MessageHandler.fromFunc w f = MessageHandler.new w f) ∧
     (∀ (h : MessageHandler) (c : Context) (u : Message),
      MessageHandler.call h c u = ⟨h.inner, TaskState.start c u⟩) ∧
     (∀ (f : MessageHandlerFunc) (c : Context) (u : Message) (e : Nat),
      (drive ⟨[f], [false]⟩ (MessageHandler.call ⟨0⟩ c u)
        ((f c u).steps + 2)).2.1.state =
        TaskState.done (Outcome.failure e) →
      (f c u).result = Outcome.failure e)) ∧
    ((∀ (w : World InlineQuery) (f : InlineQueryHandlerFunc),
      (InlineQueryHandler.new w f).1.inner = w.slots.length ∧
      (InlineQueryHandler.new w f).2.slots = w.slots ++ [f] ∧
      (InlineQueryHandler.new w f).2.locks = w.locks ++ [false] ∧
      InlineQueryHandler.fromFunc w f = InlineQueryHandler.new w f) ∧
     (∀ (h : InlineQueryHandler) (c : Context) (u : InlineQuery),
      InlineQueryHandler.call h c u = ⟨h.inner, TaskState.start c u⟩) ∧
     (∀ (f : InlineQueryHandlerFunc) (c : Context) (u : InlineQuery)
        (e : Nat),
      (drive ⟨[f], [false]⟩ (InlineQueryHandler.call ⟨0⟩ c u)
        ((f c u).steps + 2)).2.1.state =
        TaskState.done (Outcome.failure e) →
      (f c u).result = Outcome.failure e)) ∧
    ((∀ (w : World ChosenInlineResult) (f : InlineResultHandlerFunc),
      (InlineResultHandler.new w f).1.inner = w.slots.length ∧
      (InlineResultHandler.new w f).2.slots = w.slots ++ [f] ∧
      (InlineResultHandler.new w f).2.locks = w.locks ++ [false] ∧
      InlineResultHandler.fromFunc w f = InlineResultHandler.new w f) ∧
     (∀ (h : InlineResultHandler) (c : Context) (u : ChosenInlineResult),
      InlineResultHandler.call h c u = ⟨h.inner, TaskState.start c u⟩) ∧
     (∀ (f : InlineResultHandlerFunc) (c : Context)
        (u : ChosenInlineResult) (e : Nat),
      (drive ⟨[f], [false]⟩ (InlineResultHandler.call ⟨0⟩ c u)
        ((f c u).steps + 2)).2.1.state =
        TaskState.done (Outcome.failure e) →
      (f c u).result = Outcome.failure e)) :=
  ⟨⟨fun _ _ => ⟨rfl, rfl, rfl⟩, fun _ _ _ => rfl,
    fun f c u e hh => failure_origin f c u e hh⟩,
   ⟨fun _ _ => ⟨rfl, rfl, rfl⟩, fun _ _ _ => rfl,
    fun f c u e hh => failure_origin f c u e hh⟩,
   ⟨fun _ _ => ⟨rfl, rfl, rfl, rfl⟩, fun _ _ _ => rfl,
    fun f c u e hh => failure_origin f c u e hh⟩,
   ⟨fun _ _ => ⟨rfl, rfl, rfl, rfl⟩, fun _ _ _ => rfl,
    fun f c u e hh => failure_origin f c u e hh⟩,
   ⟨fun _ _ => ⟨rfl, rfl, rfl, rfl⟩, fun _ _ _ => rfl,
    fun f c u e hh => failure_origin f c u e hh⟩⟩

/-- C4, witness: a concrete EventHandler callback that immediately fails with
code 7 makes the conditional conjunct's hypothesis hold, and the theorem
concludes that the failure is the callback's own result. -/
theorem claim_C4_totality_witness :
    ((fun (_ : Context) (_ : Update) =>
        (⟨0, Outcome.failure 7⟩ : FutureOutcome)) ⟨0⟩
      (Update.message ⟨0⟩)).result = Outcome.failure 7 :=
  claim_C4_totality.1.2.2 (fun _ _ => ⟨0, Outcome.failure 7⟩) ⟨0⟩
    (Update.message ⟨0⟩) 7 rfl

/-- C5: exactly five handler wrapper categories exist, one per payload type
(Update, RawUpdate, Message, InlineQuery, ChosenInlineResult), and each is
structurally identical to the single generic implementation GenericHandler
instantiated at its payload type: the storage shape is the same (a slot
index, witnessed by a bijection), and new, call and clone agree with the
generic ones. -/
theorem claim_C5_generic_equivalence :
    ((∀ (w : World Update) (f : EventHandlerFunc),
      (EventHandler.new w f).1.inner = (GenericHandler.new w f).1.inner ∧
      (EventHandler.new w f).2 = (GenericHandler.new w f).2) ∧
     (∀ (h : EventHandler) (c : Context) (u : Update),
      EventHandler.call h c u = GenericHandler.call ⟨h.inner⟩ c u) ∧
     (∀ (h : EventHandler),
      (EventHandler.clone h).inner =
        (GenericHandler.clone (⟨h.inner⟩ : GenericHandler Update)).inner) ∧
     Function.Bijective
       (fun (h : EventHandler) => (⟨h.inner⟩ : GenericHandler Update))) ∧
    ((∀ (w : World RawUpdate) (f : RawEventHandlerFunc),
      (RawEventHandler.new w f).1.inner = (GenericHandler.new w f).1.inner ∧
      (RawEventHandler.new w f).2 = (GenericHandler.new w f).2) ∧
     (∀ (h : RawEventHandler) (c : Context) (u : RawUpdate),
      RawEventHandler.call h c u = GenericHandler.call ⟨h.inner⟩ c u) ∧
     (∀ (h : RawEventHandler),
      (RawEventHandler.clone h).inner =
        (GenericHandler.clone (⟨h.inner⟩ : GenericHandler RawUpdate)).inner) ∧
     Function.Bijective
       (fun (h : RawEventHandler) => (⟨h.inner⟩ : GenericHandler RawUpdate))) ∧
    ((∀ (w : World Message) (f : MessageHandlerFunc),
      (MessageHandler.new w f).1.inner = (GenericHandler.new w f).1.inner ∧
      (MessageHandler.new w f).2 = (GenericHandler.new w f).2) ∧
     (∀ (h : MessageHandler) (c : Context) (u : Message),
      MessageHandler.call h c u = GenericHandler.call ⟨h.inner⟩ c u) ∧
     (∀ (h : MessageHandler),
      (MessageHandler.clone h).inner =
        (GenericHandler.clone (⟨h.inner⟩ : GenericHandler Message)).inner) ∧
     Function.Bijective
       (fun (h : MessageHandler) => (⟨h.inner⟩ : GenericHandler Message))) ∧
    ((∀ (w : World InlineQuery) (f : InlineQueryHandlerFunc),
      (InlineQueryHandler.new w f).1.inner =
        (GenericHandler.new w f).1.inner ∧
      (InlineQueryHandler.new w f).2 = (GenericHandler.new w f).2) ∧
     (∀ (h : InlineQueryHandler) (c : Context) (u : InlineQuery),
      InlineQueryHandler.call h c u = GenericHandler.call ⟨h.inner⟩ c u) ∧
     (∀ (h : InlineQueryHandler),
      (InlineQueryHandler.clone h).inner =
        (GenericHandler.clone
          (⟨h.inner⟩ : GenericHandler InlineQuery)).inner) ∧
     Function.Bijective
       (fun (h : InlineQueryHandler) =>
         (⟨h.inner⟩ : GenericHandler InlineQuery))) ∧
    ((∀ (w : World ChosenInlineResult) (f : InlineResultHandlerFunc),
      (InlineResultHandler.new w f).1.inner =
        (GenericHandler.new w f).1.inner ∧
      (InlineResultHandler.new w f).2 = (GenericHandler.new w f).2) ∧
     (∀ (h : InlineResultHandler) (c : Context) (u : ChosenInlineResult),
      InlineResultHandler.call h c u = GenericHandler.call ⟨h.inner⟩ c u) ∧
     (∀ (h : InlineResultHandler),
      (InlineResultHandler.clone h).inner =
        (GenericHandler.clone
          (⟨h.inner⟩ : GenericHandler ChosenInlineResult)).inner) ∧
     Function.Bijective
       (fun (h : InlineResultHandler) =>
         (⟨h.inner⟩ : GenericHandler ChosenInlineResult))) := by
  refine ⟨⟨fun _ _ => ⟨rfl, rfl⟩, fun _ _ _ => rfl, fun _ => rfl, ?_, ?_⟩,
          ⟨fun _ _ => ⟨rfl, rfl⟩, fun _ _ _ => rfl, fun _ => rfl, ?_, ?_⟩,
          ⟨fun _ _ => ⟨rfl, rfl⟩, fun _ _ _ => rfl, fun _ => rfl, ?_, ?_⟩,
          ⟨fun _ _ => ⟨rfl, rfl⟩, fun _ _ _ => rfl, fun _ => rfl, ?_, ?_⟩,
          ⟨fun _ _ => ⟨rfl, rfl⟩, fun _ _ _ => rfl, fun _ => rfl, ?_, ?_⟩⟩ <;>
  first
  | (intro a b hab
     obtain ⟨ai⟩ := a
     obtain ⟨bi⟩ := b
     simp only [GenericHandler.mk.injEq] at hab
     rw [hab])
  | (intro g
     exact ⟨⟨g.inner⟩, rfl⟩)

/-- C6: for every handler wrapper, while no invocation holds the slot's
mutex the held function can be replaced through that exclusive access, and
after a replacement performed between two invocations the next invocation
reads and executes the new function g, not the function f supplied at
construction: its first poll starts awaiting g's task and it completes with
g's result.  One conjunct per wrapper. -/
theorem claim_C6_replacement :
    (∀ (f g : EventHandlerFunc) (c : Context) (u : Update),
      EventHandler.new (World.empty Update) f = (⟨0⟩, ⟨[f], [false]⟩) ∧
      replaceFunc ⟨[f], [false]⟩ 0 g = (⟨[g], [false]⟩, true) ∧
      (pollTask ⟨[g], [false]⟩ (EventHandler.call ⟨0⟩ c u)).2.1.state =
        TaskState.awaiting (g c u) ∧
      (drive ⟨[g], [false]⟩ (EventHandler.call ⟨0⟩ c u)
        ((g c u).steps + 2)).2.1.state = TaskState.done ((g c u).result)) ∧
    (∀ (f g : RawEventHandlerFunc) (c : Context) (u : RawUpdate),
      RawEventHandler.new (World.empty RawUpdate) f =
        (⟨0⟩, ⟨[f], [false]⟩) ∧
      replaceFunc ⟨[f], [false]⟩ 0 g = (⟨[g], [false]⟩, true) ∧
      (pollTask ⟨[g], [false]⟩ (RawEventHandler.call ⟨0⟩ c u)).2.1.state =
        TaskState.awaiting (g c u) ∧
      (drive ⟨[g], [false]⟩ (RawEventHandler.call ⟨0⟩ c u)
        ((g c u).steps + 2)).2.1.state = TaskState.done ((g c u).result)) ∧
    (∀ (f g : MessageHandlerFunc) (c : Context) (u : Message),
      MessageHandler.new (World.empty Message) f = (⟨0⟩, ⟨[f], [false]⟩) ∧
      replaceFunc ⟨[f], [false]⟩ 0 g = (⟨[g], [false]⟩, true) ∧
      (pollTask ⟨[g], [false]⟩ (MessageHandler.call ⟨0⟩ c u)).2.1.state =
        TaskState.awaiting (g c u) ∧
      (drive ⟨[g], [false]⟩ (MessageHandler.call ⟨0⟩ c u)
        ((g c u).steps + 2)).2.1.state = TaskState.done ((g c u).result)) ∧
    (∀ (f g : InlineQueryHandlerFunc) (c : Context) (u : InlineQuery),
      InlineQueryHandler.new (World.empty InlineQuery) f =
        (⟨0⟩, ⟨[f], [false]⟩) ∧
      replaceFunc ⟨[f], [false]⟩ 0 g = (⟨[g], [false]⟩, true) ∧
      (pollTask ⟨[g], [false]⟩
        (InlineQueryHandler.call ⟨0⟩ c u)).2.1.state =
        TaskState.awaiting (g c u) ∧
      (drive ⟨[g], [false]⟩ (InlineQueryHandler.call ⟨0⟩ c u)
        ((g c u).steps + 2)).2.1.state = TaskState.done ((g c u).result)) ∧
    (∀ (f g : InlineResultHandlerFunc) (c : Context)
        (u : ChosenInlineResult),
      InlineResultHandler.new (World.empty ChosenInlineResult) f =
        (⟨0⟩, ⟨[f], [false]⟩) ∧
      replaceFunc ⟨[f], [false]⟩ 0 g = (⟨[g], [false]⟩, true) ∧
      (pollTask ⟨[g], [false]⟩
        (InlineResultHandler.call ⟨0⟩ c u)).2.1.state =
        TaskState.awaiting (g c u) ∧
      (drive ⟨[g], [false]⟩ (InlineResultHandler.call ⟨0⟩ c u)
        ((g c u).steps + 2)).2.1.state = TaskState.done ((g c u).result)) :=
  ⟨fun _ g c u => ⟨rfl, rfl, rfl, exec_final_state g c u⟩,
   fun _ g c u => ⟨rfl, rfl, rfl, exec_final_state g c u⟩,
   fun _ g c u => ⟨rfl, rfl, rfl, exec_final_state g c u⟩,
   fun _ g c u => ⟨rfl, rfl, rfl, exec_final_state g c u⟩,
   fun _ g c u => ⟨rfl, rfl, rfl, exec_final_state g c u⟩⟩

/-- C8: for every handler wrapper, the derived clone copies the inner Arc
and therefore shares the single function slot of the original: clone is the
identity on the slot reference; an invocation through the clone executes the
same currently-held function as one through the original; and a replacement
performed through the clone's slot reference is observed by the next
invocation through the original (and vice versa).  One group of conjuncts
per wrapper. -/
theorem claim_C8_clone_shares_slot :
    ((∀ (h : EventHandler), EventHandler.clone h = h) ∧
     (∀ (f g : EventHandlerFunc) (c : Context) (u : Update),
      (pollTask ⟨[f], [false]⟩
        (EventHandler.call (EventHandler.clone ⟨0⟩) c u)).2.1.state =
        TaskState.awaiting (f c u) ∧
      replaceFunc ⟨[f], [false]⟩ (EventHandler.clone ⟨0⟩).inner g =
        (⟨[g], [false]⟩, true) ∧
      (pollTask ⟨[g], [false]⟩ (EventHandler.call ⟨0⟩ c u)).2.1.state =
        TaskState.awaiting (g c u) ∧
      (pollTask ⟨[g], [false]⟩
        (EventHandler.call (EventHandler.clone ⟨0⟩) c u)).2.1.state =
        TaskState.awaiting (g c u))) ∧
    ((∀ (h : RawEventHandler), RawEventHandler.clone h = h) ∧
     (∀ (f g : RawEventHandlerFunc) (c : Context) (u : RawUpdate),
      (pollTask ⟨[f], [false]⟩
        (RawEventHandler.call (RawEventHandler.clone ⟨0⟩) c u)).2.1.state =
        TaskState.awaiting (f c u) ∧
      replaceFunc ⟨[f], [false]⟩ (RawEventHandler.clone ⟨0⟩).inner g =
        (⟨[g], [false]⟩, true) ∧
      (pollTask ⟨[g], [false]⟩ (RawEventHandler.call ⟨0⟩ c u)).2.1.state =
        TaskState.awaiting (g c u) ∧
      (pollTask ⟨[g], [false]⟩
        (RawEventHandler.call (RawEventHandler.clone ⟨0⟩) c u)).2.1.state =
        TaskState.awaiting (g c u))) ∧
    ((∀ (h : MessageHandler), MessageHandler.clone h = h) ∧
     (∀ (f g : MessageHandlerFunc) (c : Context) (u : Message),
      (pollTask ⟨[f], [false]⟩
        (MessageHandler.call (MessageHandler.clone ⟨0⟩) c u)).2.1.state =
        TaskState.awaiting (f c u) ∧
      replaceFunc ⟨[f], [false]⟩ (MessageHandler.clone ⟨0⟩).inner g =
        (⟨[g], [false]⟩, true) ∧
      (pollTask ⟨[g], [false]⟩ (MessageHandler.call ⟨0⟩ c u)).2.1.state =
        TaskState.awaiting (g c u) ∧
      (pollTask ⟨[g], [false]⟩
        (MessageHandler.call (MessageHandler.clone ⟨0⟩) c u)).2.1.state =
        TaskState.awaiting (g c u))) ∧
    ((∀ (h : InlineQueryHandler), InlineQueryHandler.clone h = h) ∧
     (∀ (f g : InlineQueryHandlerFunc) (c : Context) (u : InlineQuery),
      (pollTask ⟨[f], [false]⟩
        (InlineQueryHandler.call
          (InlineQueryHandler.clone ⟨0⟩) c u)).2.1.state =
        TaskState.awaiting (f c u) ∧
      replaceFunc ⟨[f], [false]⟩ (InlineQueryHandler.clone ⟨0⟩).inner g =
        (⟨[g], [false]⟩, true) ∧
      (pollTask ⟨[g], [false]⟩
        (InlineQueryHandler.call ⟨0⟩ c u)).2.1.state =
        TaskState.awaiting (g c u) ∧
      (pollTask ⟨[g], [false]⟩
        (InlineQueryHandler.call
          (InlineQueryHandler.clone ⟨0⟩) c u)).2.1.state =
        TaskState.awaiting (g c u))) ∧
    ((∀ (h : InlineResultHandler), InlineResultHandler.clone h = h) ∧
     (∀ (f g : InlineResultHandlerFunc) (c : Context)
        (u : ChosenInlineResult),
      (pollTask ⟨[f], [false]⟩
        (InlineResultHandler.call
          (InlineResultHandler.clone ⟨0⟩) c u)).2.1.state =
        TaskState.awaiting (f c u) ∧
      replaceFunc ⟨[f], [false]⟩ (InlineResultHandler.clone ⟨0⟩).inner g =
        (⟨[g], [false]⟩, true) ∧
      (pollTask ⟨[g], [false]⟩
        (InlineResultHandler.call ⟨0⟩ c u)).2.1.state =
        TaskState.awaiting (g c u) ∧
      (pollTask ⟨[g], [false]⟩
        (InlineResultHandler.call
          (InlineResultHandler.clone ⟨0⟩) c u)).2.1.state =
        TaskState.awaiting (g c u))) :=
  ⟨⟨fun _ => rfl, fun _ _ _ _ => ⟨rfl, rfl, rfl, rfl⟩⟩,
   ⟨fun _ => rfl, fun _ _ _ _ => ⟨rfl, rfl, rfl, rfl⟩⟩,
   ⟨fun _ => rfl, fun _ _ _ _ => ⟨rfl, rfl, rfl, rfl⟩⟩,
   ⟨fun _ => rfl, fun _ _ _ _ => ⟨rfl, rfl, rfl, rfl⟩⟩,
   ⟨fun _ => rfl, fun _ _ _ _ => ⟨rfl, rfl, rfl, rfl⟩⟩⟩

/-- C9: for every handler wrapper, driving the task returned by call to
completion leaves the handler's slot (and the whole world: slot content and
lock) exactly as before the invocation, and any sequence of complete
invocations with no interleaved replacement leaves the slot holding the
function supplied at construction.  One pair of conjuncts per wrapper. -/
theorem claim_C9_frame :
    ((∀ (f : EventHandlerFunc) (c : Context) (u : Update),
      (drive ⟨[f], [false]⟩ (EventHandler.call ⟨0⟩ c u)
        ((f c u).steps + 2)).1 = ⟨[f], [false]⟩) ∧
     (∀ (f : EventHandlerFunc) (l : List (Context × Update)),
      runSeq ⟨[f], [false]⟩ 0 l = ⟨[f], [false]⟩)) ∧
    ((∀ (f : RawEventHandlerFunc) (c : Context) (u : RawUpdate),
      (drive ⟨[f], [false]⟩ (RawEventHandler.call ⟨0⟩ c u)
        ((f c u).steps + 2)).1 = ⟨[f], [false]⟩) ∧
     (∀ (f : RawEventHandlerFunc) (l : List (Context × RawUpdate)),
      runSeq ⟨[f], [false]⟩ 0 l = ⟨[f], [false]⟩)) ∧
    ((∀ (f : MessageHandlerFunc) (c : Context) (u : Message),
      (drive ⟨[f], [false]⟩ (MessageHandler.call ⟨0⟩ c u)
        ((f c u).steps + 2)).1 = ⟨[f], [false]⟩) ∧
     (∀ (f : MessageHandlerFunc) (l : List (Context × Message)),
      runSeq ⟨[f], [false]⟩ 0 l = ⟨[f], [false]⟩)) ∧
    ((∀ (f : InlineQueryHandlerFunc) (c : Context) (u : InlineQuery),
      (drive ⟨[f], [false]⟩ (InlineQueryHandler.call ⟨0⟩ c u)
        ((f c u).steps + 2)).1 = ⟨[f], [false]⟩) ∧
     (∀ (f : InlineQueryHandlerFunc) (l : List (Context × InlineQuery)),
      runSeq ⟨[f], [false]⟩ 0 l = ⟨[f], [false]⟩)) ∧
    ((∀ (f : InlineResultHandlerFunc) (c : Context)
        (u : ChosenInlineResult),
      (drive ⟨[f], [false]⟩ (InlineResultHandler.call ⟨0⟩ c u)
        ((f c u).steps + 2)).1 = ⟨[f], [false]⟩) ∧
     (∀ (f : InlineResultHandlerFunc)
        (l : List (Context × ChosenInlineResult)),
      runSeq ⟨[f], [false]⟩ 0 l = ⟨[f], [false]⟩)) :=
  ⟨⟨fun f c u => exec_world_after f c u, fun f l => runSeq_frame f l⟩,
   ⟨fun f c u => exec_world_after f c u, fun f l => runSeq_frame f l⟩,
   ⟨fun f c u => exec_world_after f c u, fun f l => runSeq_frame f l⟩,
   ⟨fun f c u => exec_world_after f c u, fun f l => runSeq_frame f l⟩,
   ⟨fun f c u => exec_world_after f c u, fun f l => runSeq_frame f l⟩⟩

/-- C7: the raw update type consists of an update identifier plus exactly
eleven optional payload fields in the fixed order message, edited message,
channel post, edited channel post, inline query, chosen inline result,
callback query, shipping query, pre-checkout query, poll, poll answer
(RawUpdate.payloadPresence lists them in that order and always has length
eleven), and for every update identifier a value with all eleven payload
fields simultaneously absent is constructible; on such a zero-population
value the classification of the dispatcher matches no kind, so it is
tolerated as a no-op. -/
theorem claim_C7_raw_update_shape :
    (∀ (u : RawUpdate), (RawUpdate.payloadPresence u).length = 11) ∧
    (∀ (i : Int), ∃ (u : RawUpdate),
      u.update_id = i ∧
      u.message = none ∧
      u.edited_message = none ∧
      u.channel_post = none ∧
      u.edited_channel_post = none ∧
      u.inline_query = none ∧
      u.chosen_inline_result = none ∧
      u.callback_query = none ∧
      u.shipping_query = none ∧
      u.pre_checkout_query = none ∧
      u.poll = none ∧
      u.poll_answer = none ∧
      RawUpdate.payloadPresence u = List.replicate 11 false ∧
      RawUpdate.populatedCount u = 0 ∧
      classifyRaw u = none) :=
  ⟨fun _ => rfl,
   fun i =>
    ⟨⟨i, none, none, none, none, none, none, none, none, none, none, none⟩,
     rfl, rfl, rfl, rfl, rfl, rfl, rfl, rfl, rfl, rfl, rfl, rfl, rfl, rfl,
     rfl⟩⟩

/-- C10: for MessageHandler, InlineQueryHandler and InlineResultHandler the
From conversion from the corresponding function type equals construction
via new on every input; and in the source exactly those three wrappers have
such a conversion, EventHandler and RawEventHandler have none (the
hasFromConversion table records which impl blocks exist). -/
theorem claim_C10_from_conversions :
    (∀ (w : World Message) (func : MessageHandlerFunc),
      MessageHandler.fromFunc w func = MessageHandler.new w func) ∧
    (∀ (w : World InlineQuery) (func : InlineQueryHandlerFunc),
      InlineQueryHandler.fromFunc w func = InlineQueryHandler.new w func) ∧
    (∀ (w : World ChosenInlineResult) (func : InlineResultHandlerFunc),
      InlineResultHandler.fromFunc w func =
        InlineResultHandler.new w func) ∧
    hasFromConversion HandlerKind.message = true ∧
    hasFromConversion HandlerKind.inlineQuery = true ∧
    hasFromConversion HandlerKind.inlineResult = true ∧
    hasFromConversion HandlerKind.event = false ∧
    hasFromConversion HandlerKind.rawEvent = false :=
  ⟨fun _ _ => rfl, fun _ _ => rfl, fun _ _ => rfl, rfl, rfl, rfl, rfl, rfl⟩

end Telexide
